import Mathlib

/-!
Verification development for the G17 Disaster Alert System.

The repository ships a React/TypeScript frontend (alert submission modal,
alerts panel, utility functions with their tests) and documents a Flask
backend (`Backend/app.py`) that is not part of the source tree here.
Frontend functions are embedded directly from the TypeScript source; the
backend broadcast/suppression engine is modelled from the written
specification, as noted on each such definition.
-/

namespace DisasterAlert

/-! ## Frontend geodesic distance (src/tests/frontend/utils.test.ts, FE-013)

`calculateDistance` implements the haversine formula with Earth radius
6371 km.  JavaScript `Math.atan2(y, x)` is modelled by the standard
two-argument arctangent over the reals. -/

noncomputable def atan2 (y x : ℝ) : ℝ :=
  if 0 < x then Real.arctan (y / x)
  else if x < 0 ∧ 0 ≤ y then Real.arctan (y / x) + Real.pi
  else if x < 0 ∧ y < 0 then Real.arctan (y / x) - Real.pi
  else if x = 0 ∧ 0 < y then Real.pi / 2
  else if x = 0 ∧ y < 0 then -(Real.pi / 2)
  else 0

noncomputable def calculateDistance (lat1 lng1 lat2 lng2 : ℝ) : ℝ :=
  let R : ℝ := 6371
  let dLat := (lat2 - lat1) * Real.pi / 180
  let dLng := (lng2 - lng1) * Real.pi / 180
  let a := Real.sin (dLat / 2) * Real.sin (dLat / 2) +
    Real.cos (lat1 * Real.pi / 180) * Real.cos (lat2 * Real.pi / 180) *
      (Real.sin (dLng / 2) * Real.sin (dLng / 2))
  let c := 2 * atan2 (Real.sqrt a) (Real.sqrt (1 - a))
  R * c

/-! ## Backend broadcast & suppression engine

`Backend/app.py` is referenced throughout the repository documentation but
is not present in the source tree, so the engine below is modelled from the
specification (sections 3-4.5 and 7). -/

/-- A latitude/longitude pair.  Modelled with rational coordinates so that
concrete scenario points such as (19.1, 72.9) are exact. -/
structure Coord where
  lat : ℚ
  lng : ℚ
deriving DecidableEq

/-- Modelled from the spec: a SuppressionWindow records a recent broadcast
event at a location.  The spec's derived `expiry` field always equals
`timestamp + SUPPRESSION_DURATION`, so non-expiry coincides with the
duration check in `shouldSuppress` and is not stored separately. -/
structure SuppressionWindow where
  center : Coord
  timestamp : Int
deriving DecidableEq

/-- Modelled from the spec: engine configuration.  Suppression radius and
duration, dispatch radius, and the per-unit retry budget are independent
configuration values threaded into the coordinator. -/
structure EngineConfig where
  suppressionRadiusKm : ℚ
  suppressionDuration : Int
  dispatchRadiusKm : ℚ
  maxRetries : Nat

/-- Modelled from the spec: default policy values, radius 200 km, duration
12 hours, dispatch radius 50 km, 2 retries. -/
def defaultConfig : EngineConfig :=
  { suppressionRadiusKm := 200
    suppressionDuration := 12
    dispatchRadiusKm := 50
    maxRetries := 2 }

/-- Modelled from the spec: `SuppressionStore.shouldSuppress(center, now)`
scans the stored windows for one within the suppression radius (inclusive)
whose age is strictly less than the suppression duration.  The geodesic
distance function is a parameter of the model.  Timestamps are in hours. -/
def shouldSuppress (dist : Coord → Coord → ℚ) (cfg : EngineConfig)
    (windows : List SuppressionWindow) (center : Coord) (now : Int) : Bool :=
  windows.any fun w =>
    decide (dist center w.center ≤ cfg.suppressionRadiusKm) &&
      decide (now - w.timestamp < cfg.suppressionDuration)

/-- A notification channel (spec: subset of sms, email). -/
inductive Channel
  | sms
  | email
deriving DecidableEq

/-- Modelled from the spec: a notifiable subject.  Coordinates are nullable;
a recipient with no coordinates or no enabled channel is never selected. -/
structure Recipient where
  rid : Nat
  coords : Option Coord
  channels : List Channel
deriving DecidableEq

/-- The per-recipient selection test of `RecipientIndex.findWithinRadius`. -/
def eligibleWithin (dist : Coord → Coord → ℚ) (center : Coord) (radiusKm : ℚ)
    (r : Recipient) : Bool :=
  match r.coords with
  | none => false
  | some c => decide (dist center c ≤ radiusKm) && !r.channels.isEmpty

/-- Modelled from the spec: `RecipientIndex.findWithinRadius(center,
radiusKm)` keeps exactly the recipients with coordinates within the radius
(inclusive) that have at least one enabled channel. -/
def findWithinRadius (dist : Coord → Coord → ℚ) (recipients : List Recipient)
    (center : Coord) (radiusKm : ℚ) : List Recipient :=
  recipients.filter (eligibleWithin dist center radiusKm)

/-- Result of one gateway send call (spec 4.4): success or one of the
`DispatchError` kinds. -/
inductive SendOutcome
  | ok
  | invalidAddress
  | gatewayUnavailable
  | gatewayRejected
deriving DecidableEq

/-- Terminal status of one dispatch unit. -/
inductive UnitStatus
  | delivered
  | failed
deriving DecidableEq

/-- Modelled from the spec: the retry loop of one dispatch unit.  `g` maps
the attempt index to that attempt's gateway outcome; `retriesLeft` is the
remaining retry budget.  Only `gatewayUnavailable` consumes a retry;
`invalidAddress` and `gatewayRejected` fail immediately.  Returns the
terminal status together with the number of retries performed. -/
def runUnit (g : Nat → SendOutcome) : Nat → Nat → UnitStatus × Nat
  | retriesLeft, attempt =>
    match g attempt with
    | .ok => (.delivered, attempt)
    | .invalidAddress => (.failed, attempt)
    | .gatewayRejected => (.failed, attempt)
    | .gatewayUnavailable =>
      match retriesLeft with
      | 0 => (.failed, attempt)
      | n + 1 => runUnit g n (attempt + 1)

/-- Outcome record of one dispatch unit. -/
structure UnitResult where
  rid : Nat
  channel : Channel
  status : UnitStatus
  retries : Nat
deriving DecidableEq

/-- Modelled from the spec: one dispatch unit per (recipient, enabled
channel) pair. -/
def dispatchUnits (selected : List Recipient) : List (Recipient × Channel) :=
  selected.flatMap fun r => r.channels.map fun c => (r, c)

/-- Modelled from the spec: run every dispatch unit to completion; a unit
that exhausts its retries is recorded as failed and never aborts the other
units.  The gateway maps (recipient id, channel, attempt index) to that
attempt's outcome. -/
def runDispatch (gw : Nat → Channel → Nat → SendOutcome) (cfg : EngineConfig)
    (units : List (Recipient × Channel)) : List UnitResult :=
  units.map fun u =>
    let res := runUnit (gw u.1.rid u.2) cfg.maxRetries 0
    { rid := u.1.rid, channel := u.2, status := res.1, retries := res.2 }

/-- Aggregated delivery outcome attached to an alert (spec section 3). -/
structure DeliveryOutcome where
  suppressed : Bool
  attempted : Nat
  delivered : Nat
  failed : Nat
deriving DecidableEq

/-- Modelled from the spec: aggregation at the join point, `attempted` is
the number of units, `delivered`/`failed` count unit statuses. -/
def aggregate (results : List UnitResult) : DeliveryOutcome :=
  { suppressed := false
    attempted := results.length
    delivered := results.countP fun r => r.status == UnitStatus.delivered
    failed := results.countP fun r => r.status == UnitStatus.failed }

/-- Modelled from the spec: a disaster alert entering the coordinator; the
descriptive fields are inert for the engine. -/
structure Alert where
  id : String
  category : String
  severity : String
  title : String
  description : String
  coords : Option Coord
  createdAt : Int

/-- Persistent state touched by the coordinator: the suppression windows
and the saved per-alert outcomes. -/
structure EngineState where
  windows : List SuppressionWindow
  savedOutcomes : List (String × DeliveryOutcome)
deriving DecidableEq

/-- External collaborators of one broadcast: whether the suppression store
read succeeds, the recipient population, and the gateway behaviour. -/
structure Env where
  suppressionStoreUp : Bool
  recipients : List Recipient
  gateway : Nat → Channel → Nat → SendOutcome

/-- Persistence-collaborator failure (spec 4.2). -/
inductive StoreError
  | storeUnavailable
deriving DecidableEq

/-- Broadcast-level errors surfaced to the caller (spec section 7 (a)). -/
inductive BroadcastError
  | missingCoordinates
deriving DecidableEq

/-- Modelled from the spec: the suppression check against the persistence
collaborator; a read failure surfaces as `StoreUnavailable`. -/
def checkSuppress (dist : Coord → Coord → ℚ) (cfg : EngineConfig) (env : Env)
    (st : EngineState) (center : Coord) (now : Int) : Except StoreError Bool :=
  if env.suppressionStoreUp then
    .ok (shouldSuppress dist cfg st.windows center now)
  else
    .error .storeUnavailable

/-- Modelled from the spec: the not-suppressed path of the coordinator,
record a SuppressionWindow, select recipients, fan out dispatch units,
aggregate and persist the outcome. -/
def proceedBroadcast (dist : Coord → Coord → ℚ) (cfg : EngineConfig) (env : Env)
    (st : EngineState) (alert : Alert) (center : Coord) (now : Int) :
    EngineState × DeliveryOutcome :=
  let windows1 := st.windows ++ [{ center := center, timestamp := now }]
  let selected := findWithinRadius dist env.recipients center cfg.dispatchRadiusKm
  let results := runDispatch env.gateway cfg (dispatchUnits selected)
  let outcome := aggregate results
  ({ windows := windows1
     savedOutcomes := st.savedOutcomes ++ [(alert.id, outcome)] }, outcome)

/-- Modelled from the spec: `BroadcastCoordinator.broadcast`.  Missing
coordinates are a contract violation surfaced as an error; a suppressed
alert is persisted with zero counts and records no window; a failed
suppression-store read fails open (proceed as not suppressed). -/
def broadcast (dist : Coord → Coord → ℚ) (cfg : EngineConfig) (env : Env)
    (st : EngineState) (alert : Alert) (now : Int) :
    Except BroadcastError (EngineState × DeliveryOutcome) :=
  match alert.coords with
  | none => .error .missingCoordinates
  | some center =>
    let suppressed :=
      match checkSuppress dist cfg env st center now with
      | .ok b => b
      | .error .storeUnavailable => false
    if suppressed then
      let out : DeliveryOutcome :=
        { suppressed := true, attempted := 0, delivered := 0, failed := 0 }
      .ok ({ windows := st.windows
             savedOutcomes := st.savedOutcomes ++ [(alert.id, out)] }, out)
    else
      .ok (proceedBroadcast dist cfg env st alert center now)

/-! ## Frontend alert submission modal (src/unnamed/part_003,
`NotifyAlertModal.tsx`) -/

/-- The submission form state of `NotifyAlertModal`. -/
structure FormData where
  type : String
  severity : String
  city : String
  state : String
  description : String
deriving DecidableEq

/-- Embedding of `validate`: every check of the TypeScript validator, which
fills `newErrors` for empty type/severity and whitespace-only
city/state/description and succeeds iff no error was recorded. -/
def validate (f : FormData) : Bool :=
  !(f.type == "") && !(f.severity == "") && !(f.city.trim == "") &&
    !(f.state.trim == "") && !(f.description.trim == "")

/-- The JSON payload POSTed to `/api/alerts`; the `coordinates` field is a
total (never null) coordinate pair. -/
structure AlertPayload where
  title : String
  type : String
  severity : String
  location : String
  message : String
  coordinates : Coord
deriving DecidableEq

/-- Embedding of `formData.type.charAt(0).toUpperCase() +
formData.type.slice(1)`. -/
def capitalizeFirst (s : String) : String :=
  match s.data with
  | [] => ""
  | c :: rest => String.mk (c.toUpper :: rest)

/-- The payload object literal built inside `handleSubmit`. -/
def buildPayload (f : FormData) (coords : Option Coord) : AlertPayload :=
  { title := f.severity.toUpper ++ " Alert: " ++ capitalizeFirst f.type
    type := f.type
    severity := f.severity
    location := f.city ++ ", " ++ f.state
    message := f.description
    coordinates := coords.getD { lat := 0, lng := 0 } }

/-- Embedding of `handleSubmit`: a failed validation submits nothing; an
alert passing validation is POSTed with `coords || \x7b lat: 0, lng: 0 \x7d`,
where `coords` is the (possibly null) geocoding result. -/
def handleSubmit (f : FormData) (geocoded : Option Coord) : Option AlertPayload :=
  if validate f then some (buildPayload f geocoded) else none

/-- The authenticated user as seen by the modal (AuthContext `User`,
reduced to the fields the modal reads). -/
structure User where
  uid : String
  name : String
  email : String
  isAuthorized : Bool
deriving DecidableEq

/-- What `NotifyAlertModal` renders: either the Access Denied dialog (no
form, no submit handler) or the submission form carrying `handleSubmit`. -/
inductive ModalRender where
  | accessDenied
  | alertForm (submit : FormData → Option Coord → Option AlertPayload)

/-- Embedding of the component's top-level branch: `if (!user?.isAuthorized)
return <AccessDenied/>` before the form is constructed. -/
def notifyAlertModal (user : Option User) : ModalRender :=
  match user with
  | none => .accessDenied
  | some u => if u.isAuthorized then .alertForm handleSubmit else .accessDenied

/-- Whether the rendered dialog contains the submission form (the only path
from this modal to a POST of `/api/alerts`). -/
def rendersSubmitForm : ModalRender → Bool
  | .accessDenied => false
  | .alertForm _ => true

/-! ## Frontend alerts panel (src/Frontend/src/components/AlertsPanel.tsx
and the variant in src/unnamed/part_003) -/

/-- An alert as displayed by `AlertsPanel`; `timestamp` is the raw string
from the API. -/
structure PanelAlert where
  id : String
  title : String
  message : String
  severity : String
  timestamp : String
  location : String
deriving DecidableEq

/-- The comparator `(a, b) => dateB.getTime() - dateA.getTime()` as an
order predicate: `a` may precede `b` exactly when the comparator is
non-positive, i.e. `b`'s parsed time is at most `a`'s.  Timestamp parsing
(`new Date` / `parsePythonDate` plus `getTime()`) is a parameter of the
model. -/
def alertsComparatorLe (parseTs : String → Int) (a b : PanelAlert) : Bool :=
  decide (parseTs b.timestamp ≤ parseTs a.timestamp)

/-- Embedding of `const sortedAlerts = [...safeAlerts].sort(comparator)`:
the spread copies the caller's array and the copy is sorted, so the
function returns a new list and leaves its input untouched. -/
def sortedAlerts (parseTs : String → Int) (alerts : List PanelAlert) :
    List PanelAlert :=
  alerts.mergeSort (alertsComparatorLe parseTs)

/-- A sample filled-in submission form, used to instantiate theorems about
`handleSubmit` on concrete input. -/
def sampleForm : FormData :=
  { type := "flood"
    severity := "high"
    city := "Mumbai"
    state := "Maharashtra"
    description := "river overflow" }

end DisasterAlert

namespace DisasterAlert

/-! ## Helper lemmas -/

theorem atan2_zero_one : atan2 0 1 = 0 := by
  unfold atan2
  rw [if_pos one_pos]
  simp

theorem countP_status_split (results : List UnitResult) :
    (results.countP fun r => r.status == UnitStatus.delivered) +
      (results.countP fun r => r.status == UnitStatus.failed) =
      results.length := by
  induction results with
  | nil => simp
  | cons r rs ih =>
    cases h : r.status <;>
      simp [List.countP_cons, h] <;> omega

/-! ## Claim theorems -/

/-- C1: `shouldSuppress(center, now)` is true iff some stored
SuppressionWindow lies within the suppression radius (inclusive) and is
strictly younger than the suppression duration; the default policy is
200 km / 12 h; in Scenario A a first alert at (19.0, 72.8) at t=0 is not
suppressed, a second alert at (19.1, 72.9) within the radius at t=+1h is
suppressed, one at exactly the radius is still suppressed, while at
t=+12h (exactly the duration) and t=+13h the window no longer
suppresses. -/
theorem c1_shouldSuppress_characterization :
    (∀ (dist : Coord → Coord → ℚ) (cfg : EngineConfig)
        (windows : List SuppressionWindow) (center : Coord) (now : Int),
      shouldSuppress dist cfg windows center now = true ↔
        ∃ w ∈ windows, dist center w.center ≤ cfg.suppressionRadiusKm ∧
          now - w.timestamp < cfg.suppressionDuration) ∧
    defaultConfig.suppressionRadiusKm = 200 ∧
    defaultConfig.suppressionDuration = 12 ∧
    (∀ dist : Coord → Coord → ℚ,
      shouldSuppress dist defaultConfig [] ⟨19, 72.8⟩ 0 = false ∧
      (dist ⟨19.1, 72.9⟩ ⟨19, 72.8⟩ ≤ 200 →
        shouldSuppress dist defaultConfig [⟨⟨19, 72.8⟩, 0⟩] ⟨19.1, 72.9⟩ 1 = true) ∧
      (dist ⟨19.1, 72.9⟩ ⟨19, 72.8⟩ = 200 →
        shouldSuppress dist defaultConfig [⟨⟨19, 72.8⟩, 0⟩] ⟨19.1, 72.9⟩ 1 = true) ∧
      shouldSuppress dist defaultConfig [⟨⟨19, 72.8⟩, 0⟩] ⟨19.1, 72.9⟩ 12 = false ∧
      shouldSuppress dist defaultConfig [⟨⟨19, 72.8⟩, 0⟩] ⟨19.1, 72.9⟩ 13 = false) := by
  refine ⟨?_, rfl, rfl, ?_⟩
  · intro dist cfg windows center now
    simp [shouldSuppress, List.any_eq_true]
  · intro dist
    refine ⟨rfl, ?_, ?_, ?_, ?_⟩
    · intro h
      simp only [shouldSuppress, defaultConfig, List.any_cons, List.any_nil,
        Bool.or_false, Bool.and_eq_true, decide_eq_true_eq]
      exact ⟨h, by norm_num⟩
    · intro h
      simp only [shouldSuppress, defaultConfig, List.any_cons, List.any_nil,
        Bool.or_false, Bool.and_eq_true, decide_eq_true_eq]
      exact ⟨le_of_eq h, by norm_num⟩
    · simp only [shouldSuppress, defaultConfig, List.any_cons, List.any_nil,
        Bool.or_false, Bool.and_eq_false_iff, decide_eq_false_iff_not]
      right
      norm_num
    · simp only [shouldSuppress, defaultConfig, List.any_cons, List.any_nil,
        Bool.or_false, Bool.and_eq_false_iff, decide_eq_false_iff_not]
      right
      norm_num

/-- C1 witness: Scenario A instantiated with a concrete distance function
placing the second alert 12 km from the first. -/
theorem c1_shouldSuppress_characterization_witness :
    shouldSuppress (fun _ _ => (12 : ℚ)) defaultConfig [] ⟨19, 72.8⟩ 0 = false ∧
    shouldSuppress (fun _ _ => (12 : ℚ)) defaultConfig
      [⟨⟨19, 72.8⟩, 0⟩] ⟨19.1, 72.9⟩ 1 = true ∧
    shouldSuppress (fun _ _ => (12 : ℚ)) defaultConfig
      [⟨⟨19, 72.8⟩, 0⟩] ⟨19.1, 72.9⟩ 13 = false := by
  have h := (c1_shouldSuppress_characterization.2.2.2) (fun _ _ => (12 : ℚ))
  exact ⟨h.1, h.2.1 (by norm_num), h.2.2.2.2⟩

/-- C2: a suppressed alert makes zero dispatch attempts, is persisted with
`suppressed=true, attempted=0, delivered=0, failed=0`, and records no new
SuppressionWindow: the window list is unchanged. -/
theorem c2_suppressed_alert_frame :
    ∀ (dist : Coord → Coord → ℚ) (cfg : EngineConfig) (env : Env)
      (st : EngineState) (alert : Alert) (center : Coord) (now : Int),
      alert.coords = some center →
      env.suppressionStoreUp = true →
      shouldSuppress dist cfg st.windows center now = true →
      broadcast dist cfg env st alert now =
        .ok ({ windows := st.windows
               savedOutcomes := st.savedOutcomes ++
                 [(alert.id,
                   { suppressed := true, attempted := 0, delivered := 0, failed := 0 })] },
             { suppressed := true, attempted := 0, delivered := 0, failed := 0 }) := by
  intro dist cfg env st alert center now hc hup hsup
  simp [broadcast, hc, checkSuppress, hup, hsup]

/-- C2 witness: a concrete suppressed broadcast (one fresh window at the
alert's own location) leaves the window list unchanged and persists the
all-zero suppressed outcome. -/
theorem c2_suppressed_alert_frame_witness :
    broadcast (fun _ _ => (0 : ℚ)) defaultConfig
      { suppressionStoreUp := true
        recipients := [{ rid := 1, coords := some ⟨0, 0⟩, channels := [.sms] }]
        gateway := fun _ _ _ => .ok }
      { windows := [⟨⟨0, 0⟩, 0⟩], savedOutcomes := [] }
      { id := "a2", category := "flood", severity := "high", title := "t"
        description := "d", coords := some ⟨0, 0⟩, createdAt := 1 }
      1 =
      .ok ({ windows := [⟨⟨0, 0⟩, 0⟩]
             savedOutcomes :=
               [("a2",
                 { suppressed := true, attempted := 0, delivered := 0, failed := 0 })] },
           { suppressed := true, attempted := 0, delivered := 0, failed := 0 }) := by
  exact c2_suppressed_alert_frame (fun _ _ => (0 : ℚ)) defaultConfig _ _ _ ⟨0, 0⟩ 1
    rfl rfl (by decide)

/-- C3: `findWithinRadius` keeps exactly the recipients with coordinates
within the radius (inclusive) and at least one enabled channel; a
recipient with no coordinates is excluded from every selection and from
every dispatch unit, for any center and radius; the default dispatch
radius (50 km) is a configuration field independent of the suppression
radius (200 km). -/
theorem c3_findWithinRadius_characterization :
    (∀ (dist : Coord → Coord → ℚ) (recipients : List Recipient) (center : Coord)
        (radiusKm : ℚ) (r : Recipient),
      r ∈ findWithinRadius dist recipients center radiusKm ↔
        r ∈ recipients ∧
          ∃ c, r.coords = some c ∧ dist center c ≤ radiusKm ∧ r.channels ≠ []) ∧
    (∀ (dist : Coord → Coord → ℚ) (recipients : List Recipient) (center : Coord)
        (radiusKm : ℚ) (r : Recipient),
      r.coords = none → r ∉ findWithinRadius dist recipients center radiusKm) ∧
    (∀ (dist : Coord → Coord → ℚ) (recipients : List Recipient) (center : Coord)
        (radiusKm : ℚ) (r : Recipient) (ch : Channel),
      (r, ch) ∈ dispatchUnits (findWithinRadius dist recipients center radiusKm) →
      r.coords ≠ none) ∧
    defaultConfig.dispatchRadiusKm = 50 ∧
    defaultConfig.suppressionRadiusKm = 200 := by
  have hmem : ∀ (dist : Coord → Coord → ℚ) (recipients : List Recipient)
      (center : Coord) (radiusKm : ℚ) (r : Recipient),
      r ∈ findWithinRadius dist recipients center radiusKm ↔
        r ∈ recipients ∧
          ∃ c, r.coords = some c ∧ dist center c ≤ radiusKm ∧ r.channels ≠ [] := by
    intro dist recipients center radiusKm r
    rw [findWithinRadius, List.mem_filter]
    constructor
    · rintro ⟨hr, he⟩
      refine ⟨hr, ?_⟩
      unfold eligibleWithin at he
      cases hco : r.coords with
      | none => rw [hco] at he; exact absurd he (by simp)
      | some c =>
        rw [hco] at he
        simp only [Bool.and_eq_true, decide_eq_true_eq, Bool.not_eq_true',
          List.isEmpty_eq_false] at he
        exact ⟨c, rfl, he.1, he.2⟩
    · rintro ⟨hr, c, hco, hd, hch⟩
      refine ⟨hr, ?_⟩
      unfold eligibleWithin
      rw [hco]
      simp only [Bool.and_eq_true, decide_eq_true_eq, Bool.not_eq_true',
        List.isEmpty_eq_false]
      exact ⟨hd, hch⟩
  refine ⟨hmem, ?_, ?_, rfl, rfl⟩
  · intro dist recipients center radiusKm r hnone hmem'
    rcases ((hmem dist recipients center radiusKm r).mp hmem').2 with ⟨c, hc, -⟩
    rw [hnone] at hc
    exact Option.noConfusion hc
  · intro dist recipients center radiusKm r ch hu
    rcases List.mem_flatMap.mp hu with ⟨a, ha, hin⟩
    rcases List.mem_map.mp hin with ⟨c, _, heq⟩
    have hr : a = r := congrArg Prod.fst heq
    subst hr
    rcases ((hmem dist recipients center radiusKm a).mp ha).2 with ⟨c', hc', -⟩
    rw [hc']
    exact fun h => Option.noConfusion h

/-- C3 witness: with recipients at 49 km and 51 km and one with no
coordinates, only the 49 km recipient is selected at radius 50 km, and the
coordinate-less recipient appears in no dispatch unit. -/
theorem c3_findWithinRadius_characterization_witness :
    ({ rid := 1, coords := some ⟨1, 0⟩, channels := [.sms] } : Recipient) ∈
      findWithinRadius
        (fun _ c => if c = ⟨1, 0⟩ then (49 : ℚ) else 51)
        [{ rid := 1, coords := some ⟨1, 0⟩, channels := [.sms] },
         { rid := 2, coords := some ⟨2, 0⟩, channels := [.sms] },
         { rid := 3, coords := none, channels := [.sms] }]
        ⟨0, 0⟩ 50 ∧
    ({ rid := 3, coords := none, channels := [.sms] } : Recipient) ∉
      findWithinRadius
        (fun _ c => if c = ⟨1, 0⟩ then (49 : ℚ) else 51)
        [{ rid := 1, coords := some ⟨1, 0⟩, channels := [.sms] },
         { rid := 2, coords := some ⟨2, 0⟩, channels := [.sms] },
         { rid := 3, coords := none, channels := [.sms] }]
        ⟨0, 0⟩ 50 := by
  constructor
  · exact (c3_findWithinRadius_characterization.1 _ _ _ _ _).mpr
      ⟨by simp, ⟨1, 0⟩, rfl, by norm_num, by simp⟩
  · exact c3_findWithinRadius_characterization.2.1 _ _ _ _ _ rfl

/-- C4: for every finalized, non-suppressed alert, the aggregated outcome
satisfies `delivered + failed = attempted`, where delivered and failed
count the dispatch units with the respective terminal status. -/
theorem c4_delivered_add_failed_eq_attempted :
    ∀ (dist : Coord → Coord → ℚ) (cfg : EngineConfig) (env : Env)
      (st : EngineState) (alert : Alert) (now : Int)
      (st' : EngineState) (out : DeliveryOutcome),
      broadcast dist cfg env st alert now = .ok (st', out) →
      out.suppressed = false →
      out.delivered + out.failed = out.attempted := by
  intro dist cfg env st alert now st' out hb hns
  cases hc : alert.coords with
  | none => rw [broadcast, hc] at hb; exact Except.noConfusion hb
  | some center =>
    rw [broadcast, hc] at hb
    dsimp only at hb
    split at hb
    · rcases Except.ok.inj hb with h
      have hout : out =
          { suppressed := true, attempted := 0, delivered := 0, failed := 0 } :=
        (congrArg Prod.snd h).symm
      rw [hout] at hns
      exact Bool.noConfusion hns
    · rcases Except.ok.inj hb with h
      have hout : out = (proceedBroadcast dist cfg env st alert center now).2 :=
        (congrArg Prod.snd h).symm
      rw [hout]
      unfold proceedBroadcast
      dsimp only
      unfold aggregate
      dsimp only
      exact countP_status_split _

/-- C4 witness: a concrete two-recipient broadcast (one delivery succeeds,
one recipient has an invalid address) finalizes non-suppressed with
outcome `attempted=2, delivered=1, failed=1`, and `1 + 1 = 2`. -/
theorem c4_delivered_add_failed_eq_attempted_witness :
    broadcast (fun _ _ => (0 : ℚ)) defaultConfig
        { suppressionStoreUp := true
          recipients := [{ rid := 1, coords := some ⟨0, 0⟩, channels := [.sms] },
                         { rid := 2, coords := some ⟨0, 0⟩, channels := [.sms] }]
          gateway := fun rid _ _ => if rid == 2 then .invalidAddress else .ok }
        { windows := [], savedOutcomes := [] }
        { id := "a4", category := "flood", severity := "high", title := "t"
          description := "d", coords := some ⟨0, 0⟩, createdAt := 0 }
        0 =
      .ok ({ windows := [⟨⟨0, 0⟩, 0⟩]
             savedOutcomes :=
               [("a4",
                 { suppressed := false, attempted := 2, delivered := 1, failed := 1 })] },
           { suppressed := false, attempted := 2, delivered := 1, failed := 1 }) ∧
    (1 : Nat) + 1 = 2 := by
  have hb : broadcast (fun _ _ => (0 : ℚ)) defaultConfig
      { suppressionStoreUp := true
        recipients := [{ rid := 1, coords := some ⟨0, 0⟩, channels := [.sms] },
                       { rid := 2, coords := some ⟨0, 0⟩, channels := [.sms] }]
        gateway := fun rid _ _ => if rid == 2 then .invalidAddress else .ok }
      { windows := [], savedOutcomes := [] }
      { id := "a4", category := "flood", severity := "high", title := "t"
        description := "d", coords := some ⟨0, 0⟩, createdAt := 0 }
      0 =
      .ok ({ windows := [⟨⟨0, 0⟩, 0⟩]
             savedOutcomes :=
               [("a4",
                 { suppressed := false, attempted := 2, delivered := 1, failed := 1 })] },
           { suppressed := false, attempted := 2, delivered := 1, failed := 1 }) := by
    rfl
  exact ⟨hb, c4_delivered_add_failed_eq_attempted (fun _ _ => (0 : ℚ)) defaultConfig
    _ _ _ 0 _ { suppressed := false, attempted := 2, delivered := 1, failed := 1 }
    hb rfl⟩

/-- C5: `gatewayUnavailable` is retried up to the retry budget (default 2)
before the unit is recorded as failed; `invalidAddress` and
`gatewayRejected` are never retried (retry count 0); a unit that exhausts
its retries never aborts the broadcast (every unit still yields a result);
and a gateway that fails twice with `gatewayUnavailable` and succeeds on
the third attempt counts as delivered. -/
theorem c5_retry_policy :
    (∀ (g : Nat → SendOutcome) (retries : Nat),
      g 0 = .invalidAddress ∨ g 0 = .gatewayRejected →
      runUnit g retries 0 = (.failed, 0)) ∧
    (∀ g : Nat → SendOutcome,
      (∀ k, k ≤ 2 → g k = .gatewayUnavailable) →
      runUnit g 2 0 = (.failed, 2)) ∧
    (∀ g : Nat → SendOutcome,
      g 0 = .gatewayUnavailable → g 1 = .gatewayUnavailable → g 2 = .ok →
      runUnit g 2 0 = (.delivered, 2)) ∧
    (∀ (gw : Nat → Channel → Nat → SendOutcome) (cfg : EngineConfig)
        (units : List (Recipient × Channel)),
      (runDispatch gw cfg units).length = units.length) ∧
    defaultConfig.maxRetries = 2 := by
  refine ⟨?_, ?_, ?_, ?_, rfl⟩
  · intro g retries h
    rcases h with h | h <;> cases retries <;> simp [runUnit, h]
  · intro g h
    have h0 := h 0 (by omega)
    have h1 := h 1 (by omega)
    have h2 := h 2 (by omega)
    simp [runUnit, h0, h1, h2]
  · intro g h0 h1 h2
    simp [runUnit, h0, h1, h2]
  · intro gw cfg units
    simp [runDispatch]

/-- C5 witness: Scenario C, three SMS recipients, the gateway fails
recipient 2 with `gatewayUnavailable` on attempts 0 and 1 and succeeds on
attempt 2; the unit is delivered after 2 retries and the aggregate is
`attempted=3, delivered=3, failed=0`; Scenario D, an `invalidAddress`
recipient fails with retry count 0. -/
theorem c5_retry_policy_witness :
    runUnit (fun attempt => if attempt < 2 then .gatewayUnavailable else .ok) 2 0 =
      (.delivered, 2) ∧
    runUnit (fun _ => .invalidAddress) 2 0 = (.failed, 0) ∧
    aggregate (runDispatch
      (fun rid _ attempt =>
        if rid == 2 && attempt < 2 then .gatewayUnavailable else .ok)
      defaultConfig
      (dispatchUnits [{ rid := 1, coords := some ⟨0, 0⟩, channels := [.sms] },
                      { rid := 2, coords := some ⟨0, 0⟩, channels := [.sms] },
                      { rid := 3, coords := some ⟨0, 0⟩, channels := [.sms] }])) =
      { suppressed := false, attempted := 3, delivered := 3, failed := 0 } := by
  refine ⟨?_, ?_, by decide⟩
  · exact c5_retry_policy.2.2.1 _ rfl rfl rfl
  · exact c5_retry_policy.1 _ 2 (Or.inl rfl)

/-- C6: when the suppression store is unavailable during the suppression
check, the coordinator fails open: the broadcast proceeds exactly as the
not-suppressed path (recipient selection and dispatch run), and no
broadcast-level error is surfaced to the caller. -/
theorem c6_store_unavailable_fails_open :
    ∀ (dist : Coord → Coord → ℚ) (cfg : EngineConfig) (env : Env)
      (st : EngineState) (alert : Alert) (center : Coord) (now : Int),
      alert.coords = some center →
      env.suppressionStoreUp = false →
      broadcast dist cfg env st alert now =
        .ok (proceedBroadcast dist cfg env st alert center now) := by
  intro dist cfg env st alert center now hc hdown
  simp [broadcast, hc, checkSuppress, hdown]

/-- C6 witness: with the suppression store down and a window that would
otherwise suppress, a concrete broadcast still dispatches (attempted = 1)
and returns an ok outcome. -/
theorem c6_store_unavailable_fails_open_witness :
    broadcast (fun _ _ => (0 : ℚ)) defaultConfig
        { suppressionStoreUp := false
          recipients := [{ rid := 1, coords := some ⟨0, 0⟩, channels := [.sms] }]
          gateway := fun _ _ _ => .ok }
        { windows := [⟨⟨0, 0⟩, 0⟩], savedOutcomes := [] }
        { id := "a6", category := "flood", severity := "high", title := "t"
          description := "d", coords := some ⟨0, 0⟩, createdAt := 1 }
        1 =
      .ok (proceedBroadcast (fun _ _ => (0 : ℚ)) defaultConfig
        { suppressionStoreUp := false
          recipients := [{ rid := 1, coords := some ⟨0, 0⟩, channels := [.sms] }]
          gateway := fun _ _ _ => .ok }
        { windows := [⟨⟨0, 0⟩, 0⟩], savedOutcomes := [] }
        { id := "a6", category := "flood", severity := "high", title := "t"
          description := "d", coords := some ⟨0, 0⟩, createdAt := 1 }
        ⟨0, 0⟩ 1) ∧
    (proceedBroadcast (fun _ _ => (0 : ℚ)) defaultConfig
        { suppressionStoreUp := false
          recipients := [{ rid := 1, coords := some ⟨0, 0⟩, channels := [.sms] }]
          gateway := fun _ _ _ => .ok }
        { windows := [⟨⟨0, 0⟩, 0⟩], savedOutcomes := [] }
        { id := "a6", category := "flood", severity := "high", title := "t"
          description := "d", coords := some ⟨0, 0⟩, createdAt := 1 }
        ⟨0, 0⟩ 1).2.attempted = 1 := by
  exact ⟨c6_store_unavailable_fails_open (fun _ _ => (0 : ℚ)) defaultConfig _ _ _
    ⟨0, 0⟩ 1 rfl rfl, by decide⟩

/-- C7: the haversine distance `calculateDistance` (Earth radius 6371 km) is
symmetric in its two coordinate-pair arguments, and returns exactly 0 when
both arguments are the same point. -/
theorem c7_calculateDistance_symm_and_self_zero :
    (∀ lat1 lng1 lat2 lng2 : ℝ,
      calculateDistance lat1 lng1 lat2 lng2 = calculateDistance lat2 lng2 lat1 lng1) ∧
    (∀ lat lng : ℝ, calculateDistance lat lng lat lng = 0) := by
  constructor
  · intro lat1 lng1 lat2 lng2
    unfold calculateDistance
    dsimp only
    have hlat : (lat1 - lat2) * Real.pi / 180 / 2
        = -((lat2 - lat1) * Real.pi / 180 / 2) := by ring
    have hlng : (lng1 - lng2) * Real.pi / 180 / 2
        = -((lng2 - lng1) * Real.pi / 180 / 2) := by ring
    have key :
        Real.sin ((lat1 - lat2) * Real.pi / 180 / 2) *
            Real.sin ((lat1 - lat2) * Real.pi / 180 / 2) +
          Real.cos (lat2 * Real.pi / 180) * Real.cos (lat1 * Real.pi / 180) *
            (Real.sin ((lng1 - lng2) * Real.pi / 180 / 2) *
              Real.sin ((lng1 - lng2) * Real.pi / 180 / 2))
        = Real.sin ((lat2 - lat1) * Real.pi / 180 / 2) *
            Real.sin ((lat2 - lat1) * Real.pi / 180 / 2) +
          Real.cos (lat1 * Real.pi / 180) * Real.cos (lat2 * Real.pi / 180) *
            (Real.sin ((lng2 - lng1) * Real.pi / 180 / 2) *
              Real.sin ((lng2 - lng1) * Real.pi / 180 / 2)) := by
      rw [hlat, hlng, Real.sin_neg, Real.sin_neg]
      ring
    rw [key]
  · intro lat lng
    unfold calculateDistance
    dsimp only
    simp [sub_self, atan2_zero_one]

/-- C8: if the geocoding lookup returns no result, `handleSubmit` still
submits the alert, with the sentinel coordinates (0, 0); and every payload
it ever submits carries (non-null) coordinates equal to the geocoding
result or the sentinel. -/
theorem c8_geocode_failure_sentinel :
    (∀ f : FormData, validate f = true →
      handleSubmit f none = some (buildPayload f none) ∧
        (buildPayload f none).coordinates = { lat := 0, lng := 0 }) ∧
    (∀ (f : FormData) (geocoded : Option Coord) (p : AlertPayload),
      handleSubmit f geocoded = some p →
      p.coordinates = geocoded.getD { lat := 0, lng := 0 }) := by
  constructor
  · intro f hv
    refine ⟨?_, rfl⟩
    unfold handleSubmit
    rw [hv]
    simp
  · intro f geocoded p hp
    unfold handleSubmit at hp
    split at hp
    · cases Option.some.inj hp
      rfl
    · exact Option.noConfusion hp

unseal Substring.takeWhileAux Substring.takeRightWhileAux in
/-- C8 witness: a concrete valid form with failed geocoding is submitted
with coordinates (0, 0). -/
theorem c8_geocode_failure_sentinel_witness :
    validate sampleForm = true ∧
    handleSubmit sampleForm none = some (buildPayload sampleForm none) ∧
    (buildPayload sampleForm none).coordinates = { lat := 0, lng := 0 } := by
  have hv : validate sampleForm = true := by decide
  have h := c8_geocode_failure_sentinel.1 sampleForm hv
  exact ⟨hv, h.1, h.2⟩

/-- C9: for a missing user or one whose `isAuthorized` flag is false,
`NotifyAlertModal` renders only the Access Denied dialog, which carries no
submission form and hence no path to a POST of `/api/alerts`. -/
theorem c9_unauthorized_renders_access_denied :
    ∀ user : Option User,
      (∀ u, user = some u → u.isAuthorized = false) →
      notifyAlertModal user = .accessDenied ∧
        rendersSubmitForm (notifyAlertModal user) = false := by
  intro user h
  cases user with
  | none => exact ⟨rfl, rfl⟩
  | some u =>
    have hu : u.isAuthorized = false := h u rfl
    simp [notifyAlertModal, rendersSubmitForm, hu]

/-- C9 witness: a concrete unauthorized user gets the Access Denied dialog
and no submission form. -/
theorem c9_unauthorized_renders_access_denied_witness :
    notifyAlertModal (some { uid := "u1", name := "John Doe"
                             email := "john.doe@example.com", isAuthorized := false }) =
        .accessDenied ∧
      rendersSubmitForm (notifyAlertModal
        (some { uid := "u1", name := "John Doe"
                email := "john.doe@example.com", isAuthorized := false })) = false := by
  exact c9_unauthorized_renders_access_denied _ (by intro u hu; cases hu; rfl)

/-- C10: `AlertsPanel` displays a sorted copy of the caller's alerts list;
the result is a permutation of the input (the spread copy leaves the
caller's array untouched) and is ordered newest-first, non-increasing in
the parsed timestamp. -/
theorem c10_sortedAlerts_newest_first :
    ∀ (parseTs : String → Int) (alerts : List PanelAlert),
      (sortedAlerts parseTs alerts).Perm alerts ∧
        (sortedAlerts parseTs alerts).Pairwise
          (fun a b => parseTs b.timestamp ≤ parseTs a.timestamp) := by
  intro parseTs alerts
  constructor
  · exact List.mergeSort_perm alerts _
  · have hp : (sortedAlerts parseTs alerts).Pairwise
        (fun a b => alertsComparatorLe parseTs a b = true) := by
      apply List.sorted_mergeSort
      · intro a b c hab hbc
        simp only [alertsComparatorLe, decide_eq_true_eq] at *
        exact le_trans hbc hab
      · intro a b
        simp only [alertsComparatorLe]
        rcases le_total (parseTs b.timestamp) (parseTs a.timestamp) with h | h
        · simp [h]
        · simp [h]
    exact hp.imp fun h => of_decide_eq_true h

end DisasterAlert
